import Mathlib

/-!
Verification development for `gulp-contentful-mpa-builder` (`src/index.js`).

The file shallowly embeds the configuration-resolution and task-composition
logic of `src/index.js`: the module-level mutable `DEFAULT_CONFIG` template
(lines 25-48), the `init` entry point that derives defaults from `base`/`dest`
and merges caller options over the template (lines 78-96), the registered
`clean` task (lines 102-106), the conditional `sitemap` task and its glob
source selection (lines 108-117), and the composed `default` sequence
(lines 123-131).

External collaborators that are not part of this repository's sources
(`gulp-task-helpers`#config, node-glob matching used by `gulp.src`, the
`./helpers/view-helpers` path-rewrite helper, the task set registered by
`gulp-pipe-assets`) are modelled from the specification, as noted on the
corresponding definitions.
-/

namespace GulpBuilder

/-- Embedding of `path.join` restricted to normal relative segments: the
segments joined by a single slash (no normalization is needed for the
literal segments this program joins). -/
def pathJoin (parts : List String) : String :=
  String.intercalate "/" parts

/-- JavaScript truthiness of an optional string field: `undefined` and the
empty string are falsy, every other string is truthy. -/
def truthy : Option String → Bool
  | some s => s ≠ ""
  | none => false

/-- A JavaScript value, as far as the dynamically-typed `extendsDefaults`
parameter of `init` is concerned. -/
inductive JSValue
  | undef
  | null
  | bool (b : Bool)
  | num (n : Int)
  | str (s : String)
deriving DecidableEq, Repr

/-- Whether a JavaScript value is a boolean (`typeof v === 'boolean'`). -/
def JSValue.isBool : JSValue → Bool
  | .bool _ => true
  | _ => false

/-- Line 79: `if (typeof extendsDefaults !== 'boolean') extendsDefaults = true`. -/
def coerceExtendsDefaults (v : JSValue) : Bool :=
  match v with
  | .bool b => b
  | _ => true

/-- The `views.contentful` sub-configuration (lines 30-34). -/
structure ContentfulConfig where
  space : Option String
  accessToken : Option String
  host : Option String
deriving DecidableEq, Repr

/-- Modelled from the spec: the `views.metadata` object holds a path-rewrite
helper `p` (lines 89-93) whose behaviour is determined by the manifest file it
consults, `join(dest, rev.manifestFile || 'rev-manifest.json')`; the helper
body lives in `./helpers/view-helpers`, which is not under `src/`, so the
helper is represented here by that manifest path. -/
structure Metadata where
  manifestPath : String
deriving DecidableEq, Repr

/-- The object form of the `views` configuration. -/
structure ViewsObj where
  contentful : ContentfulConfig
  metadata : Option Metadata
deriving DecidableEq, Repr

/-- The `views` configuration: either the boolean `false` (stage disabled,
line 100 and line 125) or an options object. -/
inductive ViewsConfig
  | disabled
  | obj (v : ViewsObj)
deriving DecidableEq, Repr

/-- Opaque options for `gulp-sitemap`; the explicitly empty object is `⟨[]⟩`. -/
structure SitemapConfig where
  entries : List (String × String)
deriving DecidableEq, Repr

/-- The `serve.server` sub-configuration (lines 38-40). -/
structure ServerConfig where
  baseDir : Option String
deriving DecidableEq, Repr

/-- The `serve` sub-configuration (lines 37-46); the source field `open` is
named `openFlag` here because `open` is reserved in Lean. -/
structure ServeConfig where
  server : ServerConfig
  files : Bool
  notify : Bool
  port : Nat
  logLevel : String
  openFlag : Bool
deriving DecidableEq, Repr

/-- A resolved configuration, and also the shape of the module-level mutable
`DEFAULT_CONFIG` template (lines 25-48). -/
structure Config where
  base : Option String
  dest : Option String
  clean : Option (List String)
  views : ViewsConfig
  sitemap : Option SitemapConfig
  serve : ServeConfig
  watchTasks : List String
deriving DecidableEq, Repr

/-- The environment variables read at module load (lines 19-23, 31-33, 43). -/
structure Env where
  port : Option Nat
  contentfulSpace : Option String
  contentfulAccessToken : Option String
  contentfulHost : Option String
deriving DecidableEq, Repr

/-- Lines 25-48: the value of `DEFAULT_CONFIG` at module load, before any
`init` call mutates it. -/
def DEFAULT_CONFIG (env : Env) : Config :=
  { base := none
    dest := none
    clean := none
    views := .obj
      { contentful :=
          { space := env.contentfulSpace
            accessToken := env.contentfulAccessToken
            host := env.contentfulHost }
        metadata := none }
    sitemap := none
    serve :=
      { server := { baseDir := none }
        files := false
        notify := false
        port := env.port.getD 3000
        logLevel := "info"
        openFlag := false }
    watchTasks := ["browserSync.reload"] }

/-- Caller overrides for `views.contentful`. -/
structure ContentfulOpt where
  space : Option String := none
  accessToken : Option String := none
  host : Option String := none
deriving DecidableEq, Repr

/-- Caller value for `options.views`: the boolean `false` or a partial object. -/
inductive ViewsOpt
  | disabled
  | obj (contentful : Option ContentfulOpt) (metadata : Option Metadata)
deriving DecidableEq, Repr

/-- Caller overrides for `serve.server`. -/
structure ServerOpt where
  baseDir : Option String := none
deriving DecidableEq, Repr

/-- Caller overrides for `serve`. -/
structure ServeOpt where
  server : Option ServerOpt := none
  files : Option Bool := none
  notify : Option Bool := none
  port : Option Nat := none
  logLevel : Option String := none
  openFlag : Option Bool := none
deriving DecidableEq, Repr

/-- Caller overrides for `rev` (only `manifestFile` is read by `init`). -/
structure RevOpt where
  manifestFile : Option String := none
deriving DecidableEq, Repr

/-- The caller's `options` object, restricted to the fields `init` itself
reads or that reach the configuration fields the claims are about; absent
fields are `none`. -/
structure Options where
  base : Option String := none
  dest : Option String := none
  clean : Option (List String) := none
  views : Option ViewsOpt := none
  sitemap : Option SitemapConfig := none
  serve : Option ServeOpt := none
  rev : Option RevOpt := none
  watchTasks : Option (List String) := none
deriving DecidableEq, Repr

/-- Line 91: `_.get(options, 'rev.manifestFile') || 'rev-manifest.json'`
(the JavaScript `||` falls through on `undefined` and the empty string). -/
def manifestFileName (opts : Options) : String :=
  match opts.rev with
  | some r =>
    match r.manifestFile with
    | some m => if m = "" then "rev-manifest.json" else m
    | none => "rev-manifest.json"
  | none => "rev-manifest.json"

/-- Assignment `DEFAULT_CONFIG.views.metadata = ...` (lines 89-93): the
`views` value of the template is always an object, whose `metadata` field is
overwritten. -/
def setViewsMetadata (v : ViewsConfig) (m : Option Metadata) : ViewsConfig :=
  match v with
  | .disabled => .disabled
  | .obj o => .obj { o with metadata := m }

/-- Lines 81-94: when both `options.dest` and `options.base` are truthy, the
three derived defaults are written into the module-level template: the
`clean` pair, `serve.server.baseDir`, and the `views.metadata` helper. -/
def applyDerivedDefaults (opts : Options) (st : Config) : Config :=
  if truthy opts.dest && truthy opts.base then
    { st with
      clean := some [opts.dest.getD "",
                     pathJoin [opts.base.getD "", "views", ".contentful"]]
      serve := { st.serve with server := { baseDir := opts.dest } }
      views := setViewsMetadata st.views
        (some ⟨pathJoin [opts.dest.getD "", manifestFileName opts]⟩) }
  else st

/-- Merge rule for an array-valued option. Modelled from the spec: when
`useConcat` is true, array-valued options are concatenated (default first,
then the caller's elements) rather than replaced; an absent caller value
keeps the default. -/
def mergeArray (dflt user : Option (List String)) (useConcat : Bool) :
    Option (List String) :=
  match user with
  | none => dflt
  | some l =>
    match dflt with
    | none => some l
    | some d => if useConcat then some (d ++ l) else some l

/-- Field-wise merge of caller `views.contentful` overrides over the default. -/
def mergeContentful (d : ContentfulConfig) (u : Option ContentfulOpt) :
    ContentfulConfig :=
  match u with
  | none => d
  | some o =>
    { space := o.space <|> d.space
      accessToken := o.accessToken <|> d.accessToken
      host := o.host <|> d.host }

/-- Merge of the caller's `views` value over the default: the boolean `false`
replaces the default object wholesale; an object is merged field-wise. The
default template's `views` is always an object, so the `disabled` default
branch is unreachable in this program. -/
def mergeViews (d : ViewsConfig) (u : Option ViewsOpt) : ViewsConfig :=
  match u with
  | none => d
  | some .disabled => .disabled
  | some (.obj c m) =>
    match d with
    | .disabled =>
      .obj { contentful := mergeContentful
               { space := none, accessToken := none, host := none } c
             metadata := m }
    | .obj o =>
      .obj { contentful := mergeContentful o.contentful c
             metadata := m <|> o.metadata }

/-- Merge of caller `serve.server` overrides over the default. -/
def mergeServer (d : ServerConfig) (u : Option ServerOpt) : ServerConfig :=
  match u with
  | none => d
  | some s => { baseDir := s.baseDir <|> d.baseDir }

/-- Merge of caller `serve` overrides over the default. -/
def mergeServe (d : ServeConfig) (u : Option ServeOpt) : ServeConfig :=
  match u with
  | none => d
  | some s =>
    { server := mergeServer d.server s.server
      files := s.files.getD d.files
      notify := s.notify.getD d.notify
      port := s.port.getD d.port
      logLevel := s.logLevel.getD d.logLevel
      openFlag := s.openFlag.getD d.openFlag }

/-- Modelled from the spec: `$.config(options, DEFAULT_CONFIG, extendsDefaults)`
(line 96) from the external `gulp-task-helpers` package performs a deep merge
of the caller's options over the default template — a caller-supplied value
overrides the default field-wise — and, when `extendsDefaults` (`useConcat`)
is true, array-valued options are concatenated rather than replaced. -/
def helpersConfig (opts : Options) (dflt : Config) (useConcat : Bool) : Config :=
  { base := opts.base <|> dflt.base
    dest := opts.dest <|> dflt.dest
    clean := mergeArray dflt.clean opts.clean useConcat
    views := mergeViews dflt.views opts.views
    sitemap := opts.sitemap <|> dflt.sitemap
    serve := mergeServe dflt.serve opts.serve
    watchTasks :=
      (mergeArray (some dflt.watchTasks) opts.watchTasks useConcat).getD
        dflt.watchTasks }

/-- Lines 78-96 of `exports.init`, as a transformer of the module-level
`DEFAULT_CONFIG` state: returns the mutated template together with the
resolved configuration produced by the merge on line 96. -/
def init (st : Config) (opts : Options) (extendsDefaults : Bool) :
    Config × Config :=
  let st' := applyDerivedDefaults opts st
  (st', helpersConfig opts st' extendsDefaults)

/-- Lines 78-79: `init` called with an arbitrary JavaScript value as its
second argument, which is coerced to `true` unless it is a boolean. -/
def initJS (st : Config) (opts : Options) (extendsDefaultsRaw : JSValue) :
    Config × Config :=
  init st opts (coerceExtendsDefaults extendsDefaultsRaw)

/-- Line 125 gate of the composed sequence: `config.views !== false`. -/
def viewsEnabled (c : Config) : Bool :=
  match c.views with
  | .disabled => false
  | .obj _ => true

/-- Line 100 gate: `gulp-pipe-metalcontentful` (the templated-content
provider) is initialized only when `config.views !== false`. -/
def metalcontentfulRegistered (c : Config) : Bool :=
  match c.views with
  | .disabled => false
  | .obj _ => true

/-- Lines 108 and 126 gate: `config.sitemap !== undefined`. -/
def sitemapRegistered (c : Config) : Bool :=
  c.sitemap.isSome

/-- An element of the composed `default` sequence: a named task or the
completion callback passed to `run-sequence` (line 129). -/
inductive SeqItem
  | task (name : String)
  | callback
deriving DecidableEq, Repr

/-- Lines 123-130: the `default` task builds the sequence by successive
pushes, gated on the resolved configuration and the run-time `serve`/`s`
flags. -/
def defaultSeq (c : Config) (serveFlag sFlag : Bool) : List SeqItem :=
  let seq := [SeqItem.task "clean"]
  let seq := if viewsEnabled c then seq ++ [SeqItem.task "views"] else seq
  let seq := if sitemapRegistered c then seq ++ [SeqItem.task "sitemap"] else seq
  let seq := seq ++ [SeqItem.task "assets"]
  let seq := if serveFlag || sFlag then seq ++ [SeqItem.task "serve"] else seq
  seq ++ [SeqItem.callback]

/-- Modelled from the spec: the task names registered by the external
`gulp-pipe-assets` provider (line 99 and the doc comment on lines 52-54),
including the aggregate `assets` task used by the composed sequence. -/
def assetsPipeTasks : List String :=
  ["images", "videos", "fonts", "documents", "extras", "scripts", "styles",
   "rev", "assets"]

/-- The task names registered by one `init` call, in registration order:
the asset pipe (line 99), the templated-content pipe when `views` is not
`false` (line 100), then `clean` (line 102), the conditional `sitemap`
(lines 108-117), `serve` (line 119) and `default` (line 123). -/
def registeredTasks (c : Config) : List String :=
  assetsPipeTasks
    ++ (if metalcontentfulRegistered c then ["views"] else [])
    ++ ["clean"]
    ++ (if sitemapRegistered c then ["sitemap"] else [])
    ++ ["serve", "default"]

/-- An observable effect of the `clean` task: one log line per path, or the
single `del(paths, { force: true })` call. -/
inductive CleanEvent
  | log (path : String)
  | remove (paths : List String) (force : Bool)
deriving DecidableEq, Repr

/-- Lines 102-106: the `clean` task returns immediately when `config.clean`
is falsy or empty; otherwise it logs each path in list order and then calls
`del(config.clean, { force: true })`. -/
def cleanTask (clean : Option (List String)) : List CleanEvent :=
  match clean with
  | none => []
  | some l =>
    if l.length = 0 then []
    else l.map CleanEvent.log ++ [CleanEvent.remove l true]

/-- The `clean` task registered against a resolved configuration. -/
def cleanTaskOf (c : Config) : List CleanEvent :=
  cleanTask c.clean

/-- A single-segment glob pattern: `*<suf>` or a brace alternation of
literal names. -/
inductive SegPat
  | starSuffix (suf : String)
  | alts (names : List String)
deriving DecidableEq, Repr

/-- A segment of a glob pattern: the globstar `**` or a single-segment
pattern. -/
inductive Seg
  | globstar
  | pat (p : SegPat)
deriving DecidableEq, Repr

/-- Whether the string `s` ends with the string `suf`, computed on the
underlying character lists. -/
def strEndsWith (s suf : String) : Bool :=
  suf.data.isSuffixOf s.data

/-- Matching of a single-segment pattern against one path segment: `*<suf>`
matches any name ending in `suf`, and a brace alternation matches exactly
the listed names. -/
def patMatch : SegPat → String → Bool
  | .starSuffix suf, s => strEndsWith s suf
  | .alts names, s => names.contains s

/-- Modelled from the spec: node-glob matching as used by `gulp.src` — the
globstar `**` matches zero or more whole path segments, and any other
pattern segment matches exactly one path segment. -/
def segsMatch : List Seg → List String → Bool
  | [], [] => true
  | [], _ :: _ => false
  | .pat _ :: _, [] => false
  | .pat p :: ps, s :: tl => patMatch p s && segsMatch ps tl
  | .globstar :: ps, [] => segsMatch ps []
  | .globstar :: ps, s :: tl =>
    segsMatch ps (s :: tl) || segsMatch (.globstar :: ps) tl
termination_by ps ss => ps.length + ss.length
decreasing_by all_goals simp_wf <;> omega

/-- Line 111: the positive glob `**/*.html`, relative to `config.dest`. -/
def sitemapIncludePattern : List Seg :=
  [.globstar, .pat (.starSuffix ".html")]

/-- Line 112: the single negated glob `**/{404,500}.html`, relative to
`config.dest`, with the brace alternation expanded. -/
def sitemapExcludePattern : List Seg :=
  [.globstar, .pat (.alts ["404.html", "500.html"])]

/-- Lines 110-113: a file (as its path segments relative to `config.dest`)
is selected by `gulp.src` for the sitemap when it matches the positive
pattern and not the negated one. -/
def sitemapSelects (relPath : List String) : Bool :=
  segsMatch sitemapIncludePattern relPath
    && ! segsMatch sitemapExcludePattern relPath

/-- The `metadata` field of a `views` value (`none` on the disabled form). -/
def viewsMetadata : ViewsConfig → Option Metadata
  | .disabled => none
  | .obj o => o.metadata

/-- The caller's explicit `serve.server.baseDir`, when supplied. -/
def serveBaseDirOpt (opts : Options) : Option String :=
  match opts.serve with
  | none => none
  | some s =>
    match s.server with
    | none => none
    | some sv => sv.baseDir

/-- The caller's explicit `views.metadata`, when supplied. -/
def viewsMetadataOpt (opts : Options) : Option Metadata :=
  match opts.views with
  | some (.obj _ m) => m
  | _ => none

/-- A concrete environment with no variables set, for closed instances. -/
def env0 : Env :=
  { port := none
    contentfulSpace := none
    contentfulAccessToken := none
    contentfulHost := none }

/-- A concrete options object supplying both roots and an explicit clean
list, for closed instances. -/
def optsExplicitClean : Options :=
  { base := some "app", dest := some "public", clean := some ["custom"] }

/-- Normal form of the composed sequence: the successive pushes of lines
124-129 flattened into one concatenation. -/
theorem defaultSeq_eq (c : Config) (f s : Bool) :
    defaultSeq c f s
      = [SeqItem.task "clean"]
          ++ (if viewsEnabled c then [SeqItem.task "views"] else [])
          ++ (if sitemapRegistered c then [SeqItem.task "sitemap"] else [])
          ++ [SeqItem.task "assets"]
          ++ (if (f || s) then [SeqItem.task "serve"] else [])
          ++ [SeqItem.callback] := by
  unfold defaultSeq
  cases hv : viewsEnabled c <;> cases hm : sitemapRegistered c <;>
    cases hf : f || s <;> simp

/-- C6: for every resolved configuration and every setting of the run-time
serve flags, the composed default sequence starts with `clean`, ends with the
completion callback, contains `serve` exactly when the `serve` or `s` flag is
set and then as the final stage before the callback, and overall is ordered
`clean`, then `views` (if enabled), then `sitemap` (if enabled), then
`assets`, then `serve` (iff flagged), then the callback. -/
theorem c6_default_sequence_order (c : Config) (f s : Bool) :
    (defaultSeq c f s).head? = some (SeqItem.task "clean")
    ∧ (defaultSeq c f s).getLast? = some SeqItem.callback
    ∧ (SeqItem.task "serve" ∈ defaultSeq c f s ↔ (f || s) = true)
    ∧ ((f || s) = true →
        (defaultSeq c f s).dropLast.getLast? = some (SeqItem.task "serve"))
    ∧ defaultSeq c f s
        = [SeqItem.task "clean"]
            ++ (if viewsEnabled c then [SeqItem.task "views"] else [])
            ++ (if sitemapRegistered c then [SeqItem.task "sitemap"] else [])
            ++ [SeqItem.task "assets"]
            ++ (if (f || s) then [SeqItem.task "serve"] else [])
            ++ [SeqItem.callback] := by
  rw [defaultSeq_eq]
  cases hv : viewsEnabled c <;> cases hm : sitemapRegistered c <;>
    cases hf : f || s <;> simp

/-- C6 witness: a concrete instance of the ordering theorem, with the serve
flag set, on the pristine default template. -/
theorem c6_default_sequence_order_witness :
    (defaultSeq (DEFAULT_CONFIG env0) true false).head?
        = some (SeqItem.task "clean")
    ∧ (defaultSeq (DEFAULT_CONFIG env0) true false).getLast?
        = some SeqItem.callback
    ∧ (SeqItem.task "serve" ∈ defaultSeq (DEFAULT_CONFIG env0) true false
        ↔ (true || false) = true)
    ∧ ((true || false) = true →
        (defaultSeq (DEFAULT_CONFIG env0) true false).dropLast.getLast?
          = some (SeqItem.task "serve"))
    ∧ defaultSeq (DEFAULT_CONFIG env0) true false
        = [SeqItem.task "clean"]
            ++ (if viewsEnabled (DEFAULT_CONFIG env0) then [SeqItem.task "views"]
                else [])
            ++ (if sitemapRegistered (DEFAULT_CONFIG env0)
                then [SeqItem.task "sitemap"] else [])
            ++ [SeqItem.task "assets"]
            ++ (if (true || false) then [SeqItem.task "serve"] else [])
            ++ [SeqItem.callback] :=
  c6_default_sequence_order (DEFAULT_CONFIG env0) true false

/-- C9: the registered clean stage is a no-op when the resolved `clean` list
is absent or empty, and otherwise logs one line per path in list order before
the single removal, which carries the force flag for non-empty directories. -/
theorem c9_clean_stage (c : Config) :
    ((c.clean = none ∨ c.clean = some []) → cleanTaskOf c = [])
    ∧ (∀ l : List String, c.clean = some l → l ≠ [] →
        cleanTaskOf c = l.map CleanEvent.log ++ [CleanEvent.remove l true]) := by
  constructor
  · rintro (h | h) <;> simp [cleanTaskOf, cleanTask, h]
  · intro l hl hne
    simp [cleanTaskOf, cleanTask, hl, List.length_eq_zero, hne]

/-- C9 witness: on a configuration cleaning two paths, the clean stage logs
both paths in order and then removes them with force; on the pristine
template (no clean list), it does nothing. -/
theorem c9_clean_stage_witness :
    cleanTaskOf { DEFAULT_CONFIG env0 with clean := some ["public", "tmp"] }
        = [CleanEvent.log "public", CleanEvent.log "tmp",
           CleanEvent.remove ["public", "tmp"] true]
    ∧ cleanTaskOf (DEFAULT_CONFIG env0) = [] := by
  constructor
  · have h := (c9_clean_stage
      { DEFAULT_CONFIG env0 with clean := some ["public", "tmp"] }).2
      ["public", "tmp"] rfl (by decide)
    simpa using h
  · exact (c9_clean_stage (DEFAULT_CONFIG env0)).1 (Or.inl rfl)

/-- C10: any non-boolean second argument to `init` (including `undefined`,
`null`, a number or a string) is coerced to `true`, selecting the
array-concatenation merge; only the exact boolean `false` selects array
replacement. -/
theorem c10_extends_defaults_coercion (st : Config) (opts : Options)
    (v : JSValue) (h : v.isBool = false) :
    initJS st opts v = init st opts true
    ∧ initJS st opts (JSValue.bool false) = init st opts false
    ∧ initJS st opts (JSValue.bool true) = init st opts true := by
  refine ⟨?_, rfl, rfl⟩
  cases v <;> simp_all [initJS, coerceExtendsDefaults, JSValue.isBool]

/-- C10 witness: the coercion theorem applied at the null value, whose
non-booleanness is discharged by computation, on a concrete options object
with an explicit clean list so that the two merge modes are observable. -/
theorem c10_extends_defaults_coercion_witness :
    initJS (DEFAULT_CONFIG env0)
        { base := some "app", dest := some "public", clean := some ["x"] }
        JSValue.null
      = init (DEFAULT_CONFIG env0)
          { base := some "app", dest := some "public", clean := some ["x"] }
          true
    ∧ initJS (DEFAULT_CONFIG env0)
        { base := some "app", dest := some "public", clean := some ["x"] }
        (JSValue.bool false)
      = init (DEFAULT_CONFIG env0)
          { base := some "app", dest := some "public", clean := some ["x"] }
          false
    ∧ initJS (DEFAULT_CONFIG env0)
        { base := some "app", dest := some "public", clean := some ["x"] }
        (JSValue.bool true)
      = init (DEFAULT_CONFIG env0)
          { base := some "app", dest := some "public", clean := some ["x"] }
          true :=
  c10_extends_defaults_coercion (DEFAULT_CONFIG env0)
    { base := some "app", dest := some "public", clean := some ["x"] }
    JSValue.null (by decide)

/-- C3: when both `base` and `dest` are (truthy) set and no `clean` is
supplied, the resolved `clean` is exactly the two-element list
`[dest, join(base, 'views', '.contentful')]`, in that order, whatever the
prior template state and merge mode. -/
theorem c3_clean_computed_default (st : Config) (opts : Options) (ed : Bool)
    (bs d : String) (hb : opts.base = some bs) (hb' : bs ≠ "")
    (hd : opts.dest = some d) (hd' : d ≠ "") (hc : opts.clean = none) :
    ((init st opts ed).2).clean
      = some [d, pathJoin [bs, "views", ".contentful"]] := by
  simp [init, helpersConfig, applyDerivedDefaults, truthy, mergeArray,
    hb, hd, hb', hd', hc]

/-- C3 witness: the computed-default theorem applied at a concrete options
object, with the joined path evaluated. -/
theorem c3_clean_computed_default_witness :
    ((init (DEFAULT_CONFIG env0)
        { base := some "app", dest := some "public" } true).2).clean
      = some ["public", "app/views/.contentful"] := by
  rw [c3_clean_computed_default (DEFAULT_CONFIG env0)
    { base := some "app", dest := some "public" } true "app" "public"
    rfl (by decide) rfl (by decide) rfl]
  decide

/-- C1 counterexample: with `extendsDefaults = true` (the array-concatenation
mode, also the default), a caller-supplied `clean` of `["custom"]` together
with truthy `base` and `dest` resolves to the computed default followed by
the caller's path — not to the caller-supplied value. -/
theorem c1_counterexample :
    ((init (DEFAULT_CONFIG env0)
        { base := some "app", dest := some "public", clean := some ["custom"] }
        true).2).clean
      = some ["public", "app/views/.contentful", "custom"]
    ∧ ((init (DEFAULT_CONFIG env0)
        { base := some "app", dest := some "public", clean := some ["custom"] }
        true).2).clean ≠ some ["custom"] := by
  constructor <;> decide

/-- C1 (amended): a caller-supplied `clean` is resolved verbatim when
`extendsDefaults` is `false`, and also when the computed default is absent
(base and dest not both truthy, from the pristine template); when
`extendsDefaults` is `true` and both roots are truthy, the resolved `clean`
is the computed default followed by the caller-supplied paths. -/
theorem c1_clean_override (st : Config) (opts : Options) (l : List String)
    (hc : opts.clean = some l) :
    ((init st opts false).2).clean = some l
    ∧ (∀ (bs d : String), opts.base = some bs → bs ≠ "" →
        opts.dest = some d → d ≠ "" →
        ((init st opts true).2).clean
          = some ([d, pathJoin [bs, "views", ".contentful"]] ++ l))
    ∧ (∀ env : Env, (truthy opts.dest && truthy opts.base) = false →
        ((init (DEFAULT_CONFIG env) opts true).2).clean = some l) := by
  refine ⟨?_, ?_, ?_⟩
  · cases hst : (applyDerivedDefaults opts st).clean <;>
      simp [init, helpersConfig, mergeArray, hc, hst]
  · intro bs d hb hb' hd hd'
    simp [init, helpersConfig, applyDerivedDefaults, truthy, mergeArray,
      hb, hd, hb', hd', hc]
  · intro env hcond
    simp [init, helpersConfig, applyDerivedDefaults, hcond, mergeArray, hc,
      DEFAULT_CONFIG]

/-- C1 witness: the amended override theorem applied at a concrete options
object carrying an explicit clean list. -/
theorem c1_clean_override_witness :
    ((init (DEFAULT_CONFIG env0) optsExplicitClean false).2).clean
        = some ["custom"]
    ∧ (∀ (bs d : String), optsExplicitClean.base = some bs → bs ≠ "" →
        optsExplicitClean.dest = some d → d ≠ "" →
        ((init (DEFAULT_CONFIG env0) optsExplicitClean true).2).clean
          = some ([d, pathJoin [bs, "views", ".contentful"]] ++ ["custom"]))
    ∧ (∀ env : Env,
        (truthy optsExplicitClean.dest && truthy optsExplicitClean.base)
            = false →
        ((init (DEFAULT_CONFIG env) optsExplicitClean true).2).clean
          = some ["custom"]) :=
  c1_clean_override (DEFAULT_CONFIG env0) optsExplicitClean ["custom"] rfl

/-- C2 counterexample: a first `init` call with roots `b1`/`d1` leaves its
computed `clean` default in the module-level template; a second call that
supplies only `dest` then resolves `clean` to the first call's derived pair,
while the same second call from a pristine template resolves `clean` to the
absent value. -/
theorem c2_counterexample :
    ((init ((init (DEFAULT_CONFIG env0)
          { base := some "b1", dest := some "d1" } true).1)
        { dest := some "d2" } true).2).clean
      = some ["d1", "b1/views/.contentful"]
    ∧ ((init (DEFAULT_CONFIG env0) { dest := some "d2" } true).2).clean
      = none := by
  constructor <;> decide

/-- C2 (amended): when the second `init` call supplies both (truthy) `base`
and `dest`, every derived default is recomputed from the second call's roots
— the second resolution coincides with a resolution from the pristine
template; a second call missing either root instead inherits the defaults the
first call wrote into the module-level template. -/
theorem c2_fresh_recompute (env : Env) (opts1 : Options) (ed1 : Bool)
    (opts2 : Options) (ed2 : Bool)
    (hb : truthy opts2.base = true) (hd : truthy opts2.dest = true) :
    (init ((init (DEFAULT_CONFIG env) opts1 ed1).1) opts2 ed2).2
      = (init (DEFAULT_CONFIG env) opts2 ed2).2 := by
  have key : applyDerivedDefaults opts2
      (applyDerivedDefaults opts1 (DEFAULT_CONFIG env))
      = applyDerivedDefaults opts2 (DEFAULT_CONFIG env) := by
    by_cases h1 : (truthy opts1.dest && truthy opts1.base) = true
    · simp [applyDerivedDefaults, h1, hb, hd, setViewsMetadata, DEFAULT_CONFIG]
    · simp [applyDerivedDefaults, h1]
  simp only [init]
  rw [key]

/-- C2 witness: the recomputation theorem applied to two concrete calls, the
second with fresh roots. -/
theorem c2_fresh_recompute_witness :
    (init ((init (DEFAULT_CONFIG env0)
          { base := some "b1", dest := some "d1" } true).1)
        { base := some "b2", dest := some "d2" } true).2
      = (init (DEFAULT_CONFIG env0)
          { base := some "b2", dest := some "d2" } true).2 :=
  c2_fresh_recompute env0 { base := some "b1", dest := some "d1" } true
    { base := some "b2", dest := some "d2" } true (by decide) (by decide)

/-- C8: when `base` and `dest` are not both (truthy) supplied, the derived
defaults are skipped entirely — the module template is left unchanged — and
resolution totally computes a configuration whose `clean`,
`serve.server.baseDir` and `views.metadata` are all absent when the caller
did not supply them. -/
theorem c8_derived_defaults_skipped (env : Env) (opts : Options) (ed : Bool)
    (h : truthy opts.base = false ∨ truthy opts.dest = false)
    (hc : opts.clean = none) (hs : serveBaseDirOpt opts = none)
    (hv : viewsMetadataOpt opts = none) :
    (init (DEFAULT_CONFIG env) opts ed).1 = DEFAULT_CONFIG env
    ∧ ((init (DEFAULT_CONFIG env) opts ed).2).clean = none
    ∧ ((init (DEFAULT_CONFIG env) opts ed).2).serve.server.baseDir = none
    ∧ viewsMetadata ((init (DEFAULT_CONFIG env) opts ed).2).views = none := by
  have hcond : (truthy opts.dest && truthy opts.base) = false := by
    rcases h with h | h <;> simp [h]
  refine ⟨?_, ?_, ?_, ?_⟩
  · simp [init, applyDerivedDefaults, hcond]
  · simp [init, applyDerivedDefaults, hcond, helpersConfig, mergeArray, hc,
      DEFAULT_CONFIG]
  · rcases hsv : opts.serve with _ | s
    · simp [init, applyDerivedDefaults, hcond, helpersConfig, mergeServe,
        hsv, DEFAULT_CONFIG]
    · rcases hsrv : s.server with _ | sv
      · simp [init, applyDerivedDefaults, hcond, helpersConfig, mergeServe,
          mergeServer, hsv, hsrv, DEFAULT_CONFIG]
      · have hbd : sv.baseDir = none := by
          simpa [serveBaseDirOpt, hsv, hsrv] using hs
        simp [init, applyDerivedDefaults, hcond, helpersConfig, mergeServe,
          mergeServer, hsv, hsrv, hbd, DEFAULT_CONFIG]
  · rcases hvw : opts.views with _ | v
    · simp [init, applyDerivedDefaults, hcond, helpersConfig, mergeViews,
        hvw, viewsMetadata, DEFAULT_CONFIG]
    · rcases v with _ | ⟨c, m⟩
      · simp [init, applyDerivedDefaults, hcond, helpersConfig, mergeViews,
          hvw, viewsMetadata]
      · have hm : m = none := by
          simpa [viewsMetadataOpt, hvw] using hv
        simp [init, applyDerivedDefaults, hcond, helpersConfig, mergeViews,
          hvw, hm, viewsMetadata, DEFAULT_CONFIG]

/-- C8 witness: the skip theorem applied at an options object supplying only
`dest`. -/
theorem c8_derived_defaults_skipped_witness :
    (init (DEFAULT_CONFIG env0) { dest := some "public" } true).1
        = DEFAULT_CONFIG env0
    ∧ ((init (DEFAULT_CONFIG env0) { dest := some "public" } true).2).clean
        = none
    ∧ ((init (DEFAULT_CONFIG env0)
        { dest := some "public" } true).2).serve.server.baseDir = none
    ∧ viewsMetadata ((init (DEFAULT_CONFIG env0)
        { dest := some "public" } true).2).views = none :=
  c8_derived_defaults_skipped env0 { dest := some "public" } true
    (Or.inl rfl) rfl rfl rfl

/-- The derived-defaults assignment never touches the `sitemap` field. -/
theorem applyDerivedDefaults_sitemap (opts : Options) (st : Config) :
    (applyDerivedDefaults opts st).sitemap = st.sitemap := by
  unfold applyDerivedDefaults
  split <;> rfl

/-- The two occurrences of the gate `config.views !== false` (line 100 and
line 125) agree. -/
theorem metalcontentful_eq_viewsEnabled (c : Config) :
    metalcontentfulRegistered c = viewsEnabled c := by
  cases h : c.views <;> simp [metalcontentfulRegistered, viewsEnabled, h]

/-- After the derived-defaults assignment the template's `views` is still an
object when it starts as the module template's. -/
theorem applyDerivedDefaults_views_obj (opts : Options) (env : Env) :
    ∃ o, (applyDerivedDefaults opts (DEFAULT_CONFIG env)).views
      = ViewsConfig.obj o := by
  unfold applyDerivedDefaults DEFAULT_CONFIG setViewsMetadata
  split <;> exact ⟨_, rfl⟩

/-- Membership of the `sitemap` stage in both the registered-task set and the
composed sequence is governed by `config.sitemap !== undefined`. -/
theorem sitemap_gate_iff (cfg : Config) (f s : Bool) :
    ("sitemap" ∈ registeredTasks cfg
        ∧ SeqItem.task "sitemap" ∈ defaultSeq cfg f s)
      ↔ cfg.sitemap ≠ none := by
  rw [defaultSeq_eq]
  cases hopt : cfg.sitemap <;>
    cases hv : viewsEnabled cfg <;> cases hf : f || s <;>
      simp [registeredTasks, assetsPipeTasks, sitemapRegistered,
        metalcontentful_eq_viewsEnabled, hopt, hv, hf]

/-- Membership of the `views` stage in the composed sequence is governed by
the line 125 gate alone. -/
theorem views_mem_defaultSeq (cfg : Config) (f s : Bool) :
    SeqItem.task "views" ∈ defaultSeq cfg f s ↔ viewsEnabled cfg = true := by
  rw [defaultSeq_eq]
  cases hv : viewsEnabled cfg <;> cases hm : sitemapRegistered cfg <;>
    cases hf : f || s <;> simp

/-- Membership of the `sitemap` stage in the composed sequence is governed by
the line 126 gate alone. -/
theorem sitemap_mem_defaultSeq (cfg : Config) (f s : Bool) :
    SeqItem.task "sitemap" ∈ defaultSeq cfg f s
      ↔ sitemapRegistered cfg = true := by
  rw [defaultSeq_eq]
  cases hv : viewsEnabled cfg <;> cases hm : sitemapRegistered cfg <;>
    cases hf : f || s <;> simp

/-- Membership of the `views` task name among the registered tasks is
governed by the line 100 gate alone. -/
theorem views_mem_registeredTasks (cfg : Config) :
    "views" ∈ registeredTasks cfg
      ↔ metalcontentfulRegistered cfg = true := by
  cases hm : metalcontentfulRegistered cfg <;>
    cases hs : sitemapRegistered cfg <;>
      simp [registeredTasks, assetsPipeTasks, hm, hs]

/-- The resolved `sitemap` value is exactly the caller's: the template's
`sitemap` is `undefined` and is never written by the derived defaults. -/
theorem sitemap_resolved (env : Env) (opts : Options) (ed : Bool) :
    ((init (DEFAULT_CONFIG env) opts ed).2).sitemap = opts.sitemap := by
  cases h : opts.sitemap <;>
    simp [init, helpersConfig, applyDerivedDefaults_sitemap, DEFAULT_CONFIG, h]

/-- C4: the `sitemap` stage is registered and appears in the composed
sequence exactly when the resolved `sitemap` is not the absent sentinel, and
the resolved `sitemap` equals the caller-supplied value — so an explicitly
empty options object enables the stage. -/
theorem c4_sitemap_gate (env : Env) (opts : Options) (ed : Bool) (f s : Bool) :
    (("sitemap" ∈ registeredTasks ((init (DEFAULT_CONFIG env) opts ed).2)
        ∧ SeqItem.task "sitemap"
            ∈ defaultSeq ((init (DEFAULT_CONFIG env) opts ed).2) f s)
      ↔ ((init (DEFAULT_CONFIG env) opts ed).2).sitemap ≠ none)
    ∧ ((init (DEFAULT_CONFIG env) opts ed).2).sitemap = opts.sitemap :=
  ⟨sitemap_gate_iff _ f s, sitemap_resolved env opts ed⟩

/-- C4 witness: an explicitly empty `sitemap` object (and nothing else)
enables the stage in both the task set and the sequence. -/
theorem c4_sitemap_gate_witness :
    (("sitemap" ∈ registeredTasks ((init (DEFAULT_CONFIG env0)
          { sitemap := some ⟨[]⟩ } true).2)
        ∧ SeqItem.task "sitemap"
            ∈ defaultSeq ((init (DEFAULT_CONFIG env0)
                { sitemap := some ⟨[]⟩ } true).2) false false)
      ↔ ((init (DEFAULT_CONFIG env0)
            { sitemap := some ⟨[]⟩ } true).2).sitemap ≠ none)
    ∧ ((init (DEFAULT_CONFIG env0)
        { sitemap := some ⟨[]⟩ } true).2).sitemap = some ⟨[]⟩ :=
  c4_sitemap_gate env0 { sitemap := some ⟨[]⟩ } true false false

/-- C5: the resolved `views` is the disabled sentinel exactly when the caller
passed the boolean `false`; the `views` stage appears in the composed
sequence exactly when that gate passes — independently of the sitemap gate,
which is stated by its own unconditional equivalence — and when disabled,
neither the sequence nor the registered tasks contain a templated-content
stage; an absent `views` option (defaults) keeps the stage enabled. -/
theorem c5_views_gate (env : Env) (opts : Options) (ed : Bool) (f s : Bool) :
    (((init (DEFAULT_CONFIG env) opts ed).2).views = ViewsConfig.disabled
        ↔ opts.views = some ViewsOpt.disabled)
    ∧ (SeqItem.task "views"
          ∈ defaultSeq ((init (DEFAULT_CONFIG env) opts ed).2) f s
        ↔ viewsEnabled ((init (DEFAULT_CONFIG env) opts ed).2) = true)
    ∧ (viewsEnabled ((init (DEFAULT_CONFIG env) opts ed).2) = false →
        SeqItem.task "views"
            ∉ defaultSeq ((init (DEFAULT_CONFIG env) opts ed).2) f s
          ∧ "views" ∉ registeredTasks ((init (DEFAULT_CONFIG env) opts ed).2)
          ∧ metalcontentfulRegistered ((init (DEFAULT_CONFIG env) opts ed).2)
              = false)
    ∧ (opts.views = none →
        viewsEnabled ((init (DEFAULT_CONFIG env) opts ed).2) = true)
    ∧ (SeqItem.task "sitemap"
          ∈ defaultSeq ((init (DEFAULT_CONFIG env) opts ed).2) f s
        ↔ sitemapRegistered ((init (DEFAULT_CONFIG env) opts ed).2) = true) := by
  obtain ⟨o, ho⟩ := applyDerivedDefaults_views_obj opts env
  refine ⟨?_, views_mem_defaultSeq _ f s, ?_, ?_, sitemap_mem_defaultSeq _ f s⟩
  · cases hvw : opts.views with
    | none => simp [init, helpersConfig, mergeViews, hvw, ho]
    | some v =>
      cases v with
      | disabled => simp [init, helpersConfig, mergeViews, hvw]
      | obj c m => simp [init, helpersConfig, mergeViews, hvw, ho]
  · intro hdis
    refine ⟨?_, ?_, ?_⟩
    · rw [views_mem_defaultSeq]
      simp [hdis]
    · rw [views_mem_registeredTasks, metalcontentful_eq_viewsEnabled]
      simp [hdis]
    · rw [metalcontentful_eq_viewsEnabled]
      exact hdis
  · intro hvw
    simp [init, helpersConfig, mergeViews, hvw, viewsEnabled, ho]

/-- C5 witness: with `views` explicitly `false` the gate theorem yields, at a
concrete input, that no templated-content stage is sequenced or registered. -/
theorem c5_views_gate_witness :
    (((init (DEFAULT_CONFIG env0)
          { views := some ViewsOpt.disabled } true).2).views
        = ViewsConfig.disabled
      ↔ (Options.views { views := some ViewsOpt.disabled })
        = some ViewsOpt.disabled)
    ∧ (SeqItem.task "views"
          ∈ defaultSeq ((init (DEFAULT_CONFIG env0)
              { views := some ViewsOpt.disabled } true).2) false false
        ↔ viewsEnabled ((init (DEFAULT_CONFIG env0)
            { views := some ViewsOpt.disabled } true).2) = true)
    ∧ (viewsEnabled ((init (DEFAULT_CONFIG env0)
          { views := some ViewsOpt.disabled } true).2) = false →
        SeqItem.task "views"
            ∉ defaultSeq ((init (DEFAULT_CONFIG env0)
                { views := some ViewsOpt.disabled } true).2) false false
          ∧ "views" ∉ registeredTasks ((init (DEFAULT_CONFIG env0)
              { views := some ViewsOpt.disabled } true).2)
          ∧ metalcontentfulRegistered ((init (DEFAULT_CONFIG env0)
              { views := some ViewsOpt.disabled } true).2) = false)
    ∧ ((Options.views { views := some ViewsOpt.disabled }) = none →
        viewsEnabled ((init (DEFAULT_CONFIG env0)
            { views := some ViewsOpt.disabled } true).2) = true)
    ∧ (SeqItem.task "sitemap"
          ∈ defaultSeq ((init (DEFAULT_CONFIG env0)
              { views := some ViewsOpt.disabled } true).2) false false
        ↔ sitemapRegistered ((init (DEFAULT_CONFIG env0)
            { views := some ViewsOpt.disabled } true).2) = true) :=
  c5_views_gate env0 { views := some ViewsOpt.disabled } true false false

/-- A pattern of the form `**/<single-segment pattern>` matches a path
exactly when the path is non-empty and its last segment matches the
single-segment pattern. -/
theorem segsMatch_globstar_pat (p : SegPat) :
    ∀ ss : List String,
      segsMatch [Seg.globstar, Seg.pat p] ss = true
        ↔ ∃ n, ss.getLast? = some n ∧ patMatch p n = true := by
  intro ss
  induction ss with
  | nil => simp [segsMatch]
  | cons a tl ih =>
    cases tl with
    | nil => simp [segsMatch]
    | cons b tl2 =>
      simp [segsMatch] at ih ⊢
      exact ih

/-- C7: a file under `dest` (given by its path segments relative to `dest`)
is selected as sitemap input exactly when its file name ends in `.html` and
is neither of the two reserved names `404.html` and `500.html`, at any
nesting depth — the exclusion being the single negated brace pattern of
line 112. -/
theorem c7_sitemap_selection (relPath : List String) :
    sitemapSelects relPath = true
      ↔ ∃ n, relPath.getLast? = some n ∧ strEndsWith n ".html" = true
          ∧ n ≠ "404.html" ∧ n ≠ "500.html" := by
  unfold sitemapSelects sitemapIncludePattern sitemapExcludePattern
  rw [Bool.and_eq_true, Bool.not_eq_true']
  constructor
  · rintro ⟨hinc, hnex⟩
    obtain ⟨n, hl, hsuf⟩ := (segsMatch_globstar_pat _ relPath).mp hinc
    refine ⟨n, hl, hsuf, ?_, ?_⟩
    · rintro rfl
      have hx : segsMatch
          [Seg.globstar, Seg.pat (SegPat.alts ["404.html", "500.html"])]
          relPath = true :=
        (segsMatch_globstar_pat _ relPath).mpr ⟨"404.html", hl, by decide⟩
      rw [hnex] at hx
      cases hx
    · rintro rfl
      have hx : segsMatch
          [Seg.globstar, Seg.pat (SegPat.alts ["404.html", "500.html"])]
          relPath = true :=
        (segsMatch_globstar_pat _ relPath).mpr ⟨"500.html", hl, by decide⟩
      rw [hnex] at hx
      cases hx
  · rintro ⟨n, hl, hsuf, h4, h5⟩
    refine ⟨(segsMatch_globstar_pat _ relPath).mpr ⟨n, hl, hsuf⟩, ?_⟩
    rcases hb : segsMatch [Seg.globstar,
        Seg.pat (SegPat.alts ["404.html", "500.html"])] relPath with _ | _
    · rfl
    · obtain ⟨m, hm, hpm⟩ := (segsMatch_globstar_pat _ relPath).mp hb
      rw [hl] at hm
      obtain rfl : n = m := by injection hm
      rcases eq_or_ne n "404.html" with rfl | hn4
      · exact absurd rfl h4
      · rcases eq_or_ne n "500.html" with rfl | hn5
        · exact absurd rfl h5
        · simp [patMatch, hn4, hn5] at hpm

/-- C7 witness: the selection theorem applied to the specification's example
tree — `404.html`, `a/500.html`, `index.html`, `b/c/page.html` under `dest` —
selecting exactly the latter two. -/
theorem c7_sitemap_selection_witness :
    sitemapSelects ["b", "c", "page.html"] = true
    ∧ sitemapSelects ["index.html"] = true
    ∧ sitemapSelects ["404.html"] = false
    ∧ sitemapSelects ["a", "500.html"] = false := by
  refine ⟨(c7_sitemap_selection _).mpr
      ⟨"page.html", rfl, by decide, by decide, by decide⟩,
    (c7_sitemap_selection _).mpr
      ⟨"index.html", rfl, by decide, by decide, by decide⟩, ?_, ?_⟩
  · rcases hb : sitemapSelects ["404.html"] with _ | _
    · rfl
    · obtain ⟨n, hn, _, h4, _⟩ := (c7_sitemap_selection _).mp hb
      simp only [List.getLast?_singleton, Option.some.injEq] at hn
      exact absurd hn.symm h4
  · rcases hb : sitemapSelects ["a", "500.html"] with _ | _
    · rfl
    · obtain ⟨n, hn, _, _, h5⟩ := (c7_sitemap_selection _).mp hb
      simp only [List.getLast?_cons_cons, List.getLast?_singleton,
        Option.some.injEq] at hn
      exact absurd hn.symm h5

end GulpBuilder
